import Mathlib

/-!
Shallow embedding of the ticketing service (TypeScript/Express/Mongoose).

Source layout:
- ticket model (TicketSchema, CommentSchema): src/unnamed/part_000
- queue model (QueueSchema): src/src/models/queue.model.ts
- QueueService, TicketService: src/src/routes/queue.routes.ts (concatenated file)
- TicketController: src/src/controllers/ticket.controller.ts
- QueueController: src/unnamed/part_003

MongoDB ObjectIds are modelled as `Nat`; `Date` values as `Nat` instants; a
collection as a `List` in insertion order (`findOne`/`findById` return the
first match, as Mongo does on an unindexed scan in natural order).
-/

namespace Ticketing

/-- Roles from user.model.ts: role ∈ \x7badmin, agent, customer\x7d. -/
inductive Role where
  | admin
  | agent
  | customer
deriving DecidableEq, Repr

/-- Ticket status enum from TicketSchema: new, open, pending, resolved, closed. -/
inductive Status where
  | new
  | «open»
  | pending
  | resolved
  | closed
deriving DecidableEq, Repr

/-- Ticket priority enum from TicketSchema: low, medium, high, urgent. -/
inductive Priority where
  | low
  | medium
  | high
  | urgent
deriving DecidableEq, Repr

/-- A stored user document (only the fields the embedded endpoints read). -/
structure User where
  id : Nat
  role : Role
deriving DecidableEq, Repr

/-- A stored queue document (QueueSchema in queue.model.ts). -/
structure Queue where
  id : Nat
  name : String
  description : String
  isDefault : Bool
deriving DecidableEq, Repr

/-- An embedded comment subdocument (CommentSchema). -/
structure Comment where
  content : String
  author : Nat
  isInternal : Bool
  createdAt : Nat
deriving DecidableEq, Repr

/-- A stored ticket document (TicketSchema). -/
structure Ticket where
  id : Nat
  title : String
  description : String
  status : Status
  priority : Priority
  customer : Nat
  assignee : Option Nat
  queue : Nat
  comments : List Comment
  tags : List String
  createdAt : Nat
  resolvedAt : Option Nat
  closedAt : Option Nat
deriving DecidableEq, Repr

/-- The document store: the users, queues and tickets collections, plus a
counter supplying fresh ObjectIds for inserted documents. -/
structure Db where
  users : List User
  queues : List Queue
  tickets : List Ticket
  nextId : Nat
deriving DecidableEq, Repr

/-- A BSON-ish value, used to model update documents and JSON request bodies
where the TypeScript passes untyped data through to Mongo. -/
inductive JVal where
  | jstr : String → JVal
  | jnum : Nat → JVal
  | jbool : Bool → JVal
  | jid : Nat → JVal
  | jarr : List JVal → JVal
  | jobj : List (String × JVal) → JVal

namespace QueueService

/-- Mongoose `Queue.updateMany(\x7b isDefault: true \x7d, \x7b $set: \x7b isDefault: false \x7d \x7d)`. -/
def clearDefaults (qs : List Queue) : List Queue :=
  qs.map (fun q => if q.isDefault then { q with isDefault := false } else q)

/-- The unique index on `name` (QueueSchema has `unique: true`): a save that
duplicates an existing name is rejected by the server with E11000. -/
def queueNameTaken (qs : List Queue) (name : String) : Bool :=
  qs.any (fun q => q.name == name)

/-- Input to QueueService.createQueue. -/
structure QueueInput where
  name : String
  description : Option String := none
  isDefault : Option Bool := none
deriving Repr

/-- QueueService.createQueue: if `isDefault` is truthy, first unset every
existing default queue, then insert the new document. -/
def createQueue (db : Db) (input : QueueInput) : Except String Queue × Db :=
  let qs := if input.isDefault.getD false then clearDefaults db.queues else db.queues
  if queueNameTaken qs input.name then
    (.error "E11000 duplicate key error: queues index: name", { db with queues := qs })
  else
    let q : Queue :=
      { id := db.nextId, name := input.name,
        description := input.description.getD "",
        isDefault := input.isDefault.getD false }
    (.ok q, { db with queues := qs ++ [q], nextId := db.nextId + 1 })

/-- QueueService.getAllQueues, sorted by name ascending. -/
def getAllQueues (db : Db) : List Queue :=
  db.queues.mergeSort (fun a b => decide (a.name ≤ b.name))

/-- QueueService.getQueueById. -/
def getQueueById (db : Db) (id : Nat) : Except String Queue :=
  match db.queues.find? (fun q => q.id == id) with
  | none => .error "Queue not found"
  | some q => .ok q

/-- Patch accepted by QueueService.updateQueue (undefined fields are stripped
by Mongoose before the $set). -/
structure QueuePatch where
  name : Option String := none
  description : Option String := none
  isDefault : Option Bool := none
deriving Repr

/-- Field-wise application of a queue $set document. -/
def applyQueuePatch (q : Queue) (p : QueuePatch) : Queue :=
  { q with
    name := p.name.getD q.name,
    description := p.description.getD q.description,
    isDefault := p.isDefault.getD q.isDefault }

/-- QueueService.updateQueue: if `patch.isDefault` is truthy, first unset every
existing default queue (this write persists even if the subsequent
findByIdAndUpdate fails), then $set the patch on the target. -/
def updateQueue (db : Db) (id : Nat) (p : QueuePatch) : Except String Queue × Db :=
  let qs := if p.isDefault.getD false then clearDefaults db.queues else db.queues
  match qs.find? (fun q => q.id == id) with
  | none => (.error "Queue not found", { db with queues := qs })
  | some q =>
    let q' := applyQueuePatch q p
    if qs.any (fun r => r.id != id && r.name == q'.name) then
      (.error "E11000 duplicate key error: queues index: name", { db with queues := qs })
    else
      (.ok q', { db with queues := qs.map (fun r => if r.id == id then q' else r) })

/-- QueueService.deleteQueue: refuse to delete the default queue, otherwise
remove the document. -/
def deleteQueue (db : Db) (id : Nat) : Except String String × Db :=
  match db.queues.find? (fun q => q.id == id) with
  | none => (.error "Queue not found", db)
  | some q =>
    if q.isDefault then (.error "Cannot delete the default queue", db)
    else (.ok "Queue deleted successfully",
          { db with queues := db.queues.filter (fun r => r.id != id) })

/-- QueueService.getDefaultQueue: `Queue.findOne(\x7b isDefault: true \x7d)`. -/
def getDefaultQueue (db : Db) : Except String Queue :=
  match db.queues.find? (fun q => q.isDefault) with
  | none => .error "No default queue found"
  | some q => .ok q

end QueueService

namespace TicketService

/-- The argument record of TicketService.createTicket; status, comments,
assignee and the resolution timestamps are not part of it. -/
structure TicketInput where
  title : String
  description : String
  priority : Option Priority := none
  customer : Nat
  queue : Option Nat := none
  tags : Option (List String) := none
deriving Repr

/-- `new Ticket(\x7b...\x7d)` with the schema defaults: status "new", empty
comments array, no assignee, no resolvedAt/closedAt, priority "medium". -/
def mkNewTicket (now : Nat) (id : Nat) (input : TicketInput) (queueId : Nat) : Ticket :=
  { id := id, title := input.title, description := input.description,
    status := .new, priority := input.priority.getD .medium,
    customer := input.customer, assignee := none, queue := queueId,
    comments := [], tags := input.tags.getD [], createdAt := now,
    resolvedAt := none, closedAt := none }

/-- TicketService.createTicket: when no queue is supplied, use the default
queue; when getDefaultQueue fails, create a "General" default queue first. -/
def createTicket (now : Nat) (db : Db) (input : TicketInput) : Except String Ticket × Db :=
  match input.queue with
  | some qid =>
    let t := mkNewTicket now db.nextId input qid
    (.ok t, { db with tickets := db.tickets ++ [t], nextId := db.nextId + 1 })
  | none =>
    match QueueService.getDefaultQueue db with
    | .ok dq =>
      let t := mkNewTicket now db.nextId input dq.id
      (.ok t, { db with tickets := db.tickets ++ [t], nextId := db.nextId + 1 })
    | .error _ =>
      match QueueService.createQueue db
          { name := "General", description := some "Default queue for all tickets",
            isDefault := some true } with
      | (.error e, db') => (.error e, db')
      | (.ok gq, db') =>
        let t := mkNewTicket now db'.nextId input gq.id
        (.ok t, { db' with tickets := db'.tickets ++ [t], nextId := db'.nextId + 1 })

/-- A filter value that is either a single scalar or a `$in` set, mirroring
the `Array.isArray(filters.x)` branch in getTickets. -/
inductive OneOrMany (α : Type) where
  | one : α → OneOrMany α
  | many : List α → OneOrMany α
deriving Repr

/-- Whether a stored value matches a scalar-or-`$in` filter. -/
def oneOrManyHas [BEq α] (s : OneOrMany α) (v : α) : Bool :=
  match s with
  | .one a => v == a
  | .many l => l.contains v

/-- Case-insensitive substring occurrence over character lists. -/
def containsSub (pat : List Char) : List Char → Bool
  | [] => pat.isEmpty
  | c :: cs => pat.isPrefixOf (c :: cs) || containsSub pat cs

/-- The `$regex: search, $options: i` match on a text field, for a search
string with no regex metacharacters: case-insensitive substring. -/
def containsCI (hay pat : String) : Bool :=
  containsSub pat.toLower.toList hay.toLower.toList

/-- The filter record accepted by TicketService.getTickets. -/
structure TicketFilters where
  status : Option (OneOrMany Status) := none
  priority : Option (OneOrMany Priority) := none
  queue : Option Nat := none
  assignee : Option Nat := none
  customer : Option Nat := none
  search : Option String := none
  page : Option Nat := none
  limit : Option Nat := none

/-- The Mongo query object built by getTickets, as a predicate on tickets. -/
def matchesFilters (f : TicketFilters) (t : Ticket) : Bool :=
  (match f.status with | none => true | some s => oneOrManyHas s t.status) &&
  (match f.priority with | none => true | some s => oneOrManyHas s t.priority) &&
  (match f.queue with | none => true | some q => t.queue == q) &&
  (match f.assignee with | none => true | some a => t.assignee == some a) &&
  (match f.customer with | none => true | some c => t.customer == c) &&
  (match f.search with
   | none => true
   | some s => containsCI t.title s || containsCI t.description s)

/-- `.sort(\x7b createdAt: -1 \x7d)`: order by creation time descending. -/
def sortByCreatedDesc (ts : List Ticket) : List Ticket :=
  ts.mergeSort (fun a b => decide (b.createdAt ≤ a.createdAt))

/-- The paginated response of TicketService.getTickets
(`\x7b tickets, total, page, pages \x7d`). -/
structure TicketPage where
  tickets : List Ticket
  total : Nat
  page : Nat
  pages : Nat

/-- TicketService.getTickets: `page = filters.page || 1`,
`limit = filters.limit || 10`, `skip = (page - 1) * limit`, countDocuments on
the query, then find + sort desc + skip + take, `pages = ceil(total/limit)`. -/
def getTickets (db : Db) (f : TicketFilters) : TicketPage :=
  let page := match f.page with | none => 1 | some 0 => 1 | some p => p
  let limit := match f.limit with | none => 10 | some 0 => 10 | some l => l
  let skip := (page - 1) * limit
  let matching := db.tickets.filter (matchesFilters f)
  let total := matching.length
  let items := ((sortByCreatedDesc matching).drop skip).take limit
  { tickets := items, total := total, page := page,
    pages := (total + limit - 1) / limit }

/-- TicketService.getTicketById. -/
def getTicketById (db : Db) (id : Nat) : Except String Ticket :=
  match db.tickets.find? (fun t => t.id == id) with
  | none => .error "Ticket not found"
  | some t => .ok t

/-- The `Partial ITicket` patch reaching TicketService.updateTicket; every
field of the interface other than the immutable `_id` may appear. -/
structure TicketPatch where
  title : Option String := none
  description : Option String := none
  status : Option Status := none
  priority : Option Priority := none
  tags : Option (List String) := none
  comments : Option (List Comment) := none
  assignee : Option Nat := none
  resolvedAt : Option Nat := none
  closedAt : Option Nat := none

/-- Field-wise application of the `$set: ticketData` update. -/
def applyTicketPatch (t : Ticket) (p : TicketPatch) : Ticket :=
  { t with
    title := p.title.getD t.title,
    description := p.description.getD t.description,
    status := p.status.getD t.status,
    priority := p.priority.getD t.priority,
    tags := p.tags.getD t.tags,
    comments := p.comments.getD t.comments,
    assignee := match p.assignee with | none => t.assignee | some a => some a,
    resolvedAt := match p.resolvedAt with | none => t.resolvedAt | some d => some d,
    closedAt := match p.closedAt with | none => t.closedAt | some d => some d }

/-- The status-transition timestamping block of updateTicket: when the patch
moves the status into resolved (resp. closed) and the current status differs,
overwrite `ticketData.resolvedAt` (resp. `closedAt`) with now. -/
def stampTransitions (now : Nat) (t : Ticket) (p : TicketPatch) : TicketPatch :=
  match p.status with
  | none => p
  | some st =>
    let p1 := if st = Status.resolved ∧ t.status ≠ Status.resolved then
                { p with resolvedAt := some now } else p
    if st = Status.closed ∧ t.status ≠ Status.closed then
      { p1 with closedAt := some now } else p1

/-- The whole per-document effect of updateTicket: drop `comments` from the
patch, stamp the transition timestamps, then $set. -/
def updateTicketCore (now : Nat) (t : Ticket) (p : TicketPatch) : Ticket :=
  applyTicketPatch t (stampTransitions now t { p with comments := none })

/-- `findByIdAndUpdate` writes the new document back at its id. -/
def replaceTicket (ts : List Ticket) (t' : Ticket) : List Ticket :=
  ts.map (fun t => if t.id == t'.id then t' else t)

/-- TicketService.updateTicket. -/
def updateTicket (now : Nat) (db : Db) (id : Nat) (p : TicketPatch) :
    Except String Ticket × Db :=
  match db.tickets.find? (fun t => t.id == id) with
  | none => (.error "Ticket not found", db)
  | some t =>
    let t' := updateTicketCore now t p
    (.ok t', { db with tickets := replaceTicket db.tickets t' })

/-- The comment argument of TicketService.addComment. -/
structure CommentInput where
  content : String
  author : Nat
  isInternal : Option Bool := none

/-- TicketService.addComment: `$push` a comment with `createdAt = new Date()`
and `isInternal = comment.isInternal || false` onto the embedded array. -/
def addComment (now : Nat) (db : Db) (id : Nat) (c : CommentInput) :
    Except String Ticket × Db :=
  let cd : Comment :=
    { content := c.content, author := c.author,
      isInternal := c.isInternal.getD false, createdAt := now }
  match db.tickets.find? (fun t => t.id == id) with
  | none => (.error "Ticket not found", db)
  | some t =>
    let t' := { t with comments := t.comments ++ [cd] }
    (.ok t', { db with tickets := replaceTicket db.tickets t' })

/-- The value the source places under `status` in assignTicket's $set:
`\x7b $cond: [\x7b $eq: ["$status", "new"] \x7d, "open", "$status"] \x7d`. -/
def condStatusExpr : JVal :=
  .jobj [("$cond",
    .jarr [.jobj [("$eq", .jarr [.jstr "$status", .jstr "new"])],
           .jstr "open", .jstr "$status"])]

/-- The (plain, non-pipeline) update document assignTicket passes to
`findByIdAndUpdate`. -/
def assignUpdateDoc (assigneeId : Nat) : List (String × JVal) :=
  [("assignee", .jid assigneeId), ("status", condStatusExpr)]

/-- Mongoose cast of a value written to the String-enum `status` path. In a
plain update document (object form, not an aggregation pipeline) MongoDB and
Mongoose treat the value literally: operator expressions such as `$cond` are
not evaluated, and casting an object to a String path fails. -/
def castStatus : JVal → Option Status
  | .jstr "new" => some .new
  | .jstr "open" => some .«open»
  | .jstr "pending" => some .pending
  | .jstr "resolved" => some .resolved
  | .jstr "closed" => some .closed
  | _ => none

/-- Mongoose cast of a value written to an ObjectId path. -/
def castUserRef : JVal → Option Nat
  | .jid n => some n
  | _ => none

/-- Apply one field of a plain `$set` document to a ticket, with Mongoose
casting; unknown paths are stripped (strict mode). -/
def applySetField (t : Ticket) (field : String) (v : JVal) : Except String Ticket :=
  if field = "assignee" then
    match castUserRef v with
    | some a => .ok { t with assignee := some a }
    | none => .error "Cast to ObjectId failed at path assignee"
  else if field = "status" then
    match castStatus v with
    | some s => .ok { t with status := s }
    | none => .error "Cast to string failed at path status"
  else .ok t

/-- Apply a plain `$set` document field by field, failing on the first cast
error, as Mongoose casting does. -/
def applyPlainSet (t : Ticket) : List (String × JVal) → Except String Ticket
  | [] => .ok t
  | (f, v) :: rest =>
    match applySetField t f v with
    | .error e => .error e
    | .ok t' => applyPlainSet t' rest

/-- TicketService.assignTicket, as written: a plain `$set` carrying the
unevaluated `$cond` object under `status`. -/
def assignTicket (db : Db) (ticketId assigneeId : Nat) : Except String Ticket × Db :=
  match db.tickets.find? (fun t => t.id == ticketId) with
  | none => (.error "Ticket not found", db)
  | some t =>
    match applyPlainSet t (assignUpdateDoc assigneeId) with
    | .error e => (.error e, db)
    | .ok t' => (.ok t', { db with tickets := replaceTicket db.tickets t' })

end TicketService

namespace TicketController

/-- The populated-customer ownership test the controller performs: resolve the
ticket's customer reference; when population yields a user object, compare its
id with the id of the actor. An unresolved reference makes the guard pass. -/
def customerOwnsMismatch (db : Db) (actor : User) (t : Ticket) : Bool :=
  match db.users.find? (fun u => u.id == t.customer) with
  | some cu => cu.id != actor.id
  | none => false

/-- TicketController.getTicketById: a customer may only fetch a ticket whose
populated customer matches their identity; failure of the service lookup is
surfaced as 404. Errors are (http status, message) pairs. -/
def getTicketById (db : Db) (actor : User) (id : Nat) : Except (Nat × String) Ticket :=
  match TicketService.getTicketById db id with
  | .error e => .error (404, e)
  | .ok t =>
    if actor.role = Role.customer ∧ customerOwnsMismatch db actor t then
      .error (403, "Not authorized to access this ticket")
    else .ok t

/-- TicketController.getTickets: spread the query filters, then for a
customer force `filters.customer` to the id of the actor. -/
def getTickets (db : Db) (actor : User) (f : TicketService.TicketFilters) :
    TicketService.TicketPage :=
  let f := if actor.role = Role.customer then { f with customer := some actor.id } else f
  TicketService.getTickets db f

/-- A parsed JSON request body: field names with their values, as consumed by
`Object.keys(req.body)` and the `$set` passthrough. -/
abbrev Body := List (String × JVal)

/-- Read one body field. -/
def lookupBody (body : Body) (k : String) : Option JVal :=
  (body.find? (fun kv => kv.1 == k)).map (fun kv => kv.2)

/-- String body value. -/
def asStr : JVal → Option String
  | .jstr s => some s
  | _ => none

/-- String-array body value (tags). -/
def asStrList : JVal → Option (List String)
  | .jarr l => l.mapM asStr
  | _ => none

/-- Priority cast, mirroring the enum on TicketSchema. -/
def castPriority : JVal → Option Priority
  | .jstr "low" => some .low
  | .jstr "medium" => some .medium
  | .jstr "high" => some .high
  | .jstr "urgent" => some .urgent
  | _ => none

/-- Date cast for resolvedAt/closedAt body fields. -/
def castDate : JVal → Option Nat
  | .jnum n => some n
  | _ => none

/-- The `Partial ITicket` patch Mongoose derives from the body handed to
TicketService.updateTicket: known schema paths are cast, unknown paths are
stripped (strict mode); embedded comment arrays are not reconstructed here
because updateTicket deletes `comments` from the patch in any case. -/
def patchOfBody (body : Body) : TicketService.TicketPatch :=
  { title := lookupBody body "title" >>= asStr,
    description := lookupBody body "description" >>= asStr,
    status := lookupBody body "status" >>= TicketService.castStatus,
    priority := lookupBody body "priority" >>= castPriority,
    tags := lookupBody body "tags" >>= asStrList,
    comments := none,
    assignee := lookupBody body "assignee" >>= TicketService.castUserRef,
    resolvedAt := lookupBody body "resolvedAt" >>= castDate,
    closedAt := lookupBody body "closedAt" >>= castDate }

/-- `allowedUpdates` in TicketController.updateTicket. -/
def allowedUpdates : List String := ["title", "description"]

/-- `requestedUpdates.some(update => !allowedUpdates.includes(update))`. -/
def hasDisallowedUpdates (body : Body) : Bool :=
  (body.map (fun kv => kv.1)).any (fun k => !(allowedUpdates.contains k))

/-- TicketController.updateTicket: fetch the existing ticket (missing → the
catch block answers 500 with the service message); for a customer, enforce
ownership and the \x7btitle, description\x7d field allow-list wholesale before
delegating to the service. -/
def updateTicket (now : Nat) (db : Db) (actor : User) (id : Nat) (body : Body) :
    Except (Nat × String) Ticket × Db :=
  match TicketService.getTicketById db id with
  | .error e => (.error (500, e), db)
  | .ok existing =>
    if actor.role = Role.customer ∧ customerOwnsMismatch db actor existing then
      (.error (403, "Not authorized to update this ticket"), db)
    else if actor.role = Role.customer ∧ hasDisallowedUpdates body then
      (.error (403, "Customers can only update title and description"), db)
    else
      match TicketService.updateTicket now db id (patchOfBody body) with
      | (.error e, db') => (.error (500, e), db')
      | (.ok t, db') => (.ok t, db')

/-- TicketController.addComment: after request validation (content nonempty),
reject isInternal comments from customers, then fetch the ticket, enforce
customer ownership, and delegate to the service. -/
def addComment (now : Nat) (db : Db) (actor : User) (id : Nat)
    (content : String) (isInternal : Option Bool) :
    Except (Nat × String) Ticket × Db :=
  if content = "" then (.error (400, "Comment content is required"), db)
  else if actor.role = Role.customer ∧ isInternal.getD false then
    (.error (403, "Customers cannot create internal comments"), db)
  else
    match TicketService.getTicketById db id with
    | .error e => (.error (500, e), db)
    | .ok t =>
      if actor.role = Role.customer ∧ customerOwnsMismatch db actor t then
        (.error (403, "Not authorized to comment on this ticket"), db)
      else
        match TicketService.addComment now db id
            { content := content, author := actor.id, isInternal := isInternal } with
        | (.error e, db') => (.error (500, e), db')
        | (.ok t', db') => (.ok t', db')

end TicketController

/-- The three queue mutations reachable through QueueController (create,
update, delete), for reasoning about arbitrary operation sequences. -/
inductive QueueOp where
  | create : QueueService.QueueInput → QueueOp
  | update : Nat → QueueService.QueuePatch → QueueOp
  | delete : Nat → QueueOp

/-- Run one queue mutation, keeping whatever state it leaves behind whether it
succeeds or fails. -/
def applyQueueOp (db : Db) : QueueOp → Db
  | .create i => (QueueService.createQueue db i).2
  | .update id p => (QueueService.updateQueue db id p).2
  | .delete id => (QueueService.deleteQueue db id).2

/-- Run a sequence of queue mutations left to right. -/
def runQueueOps (db : Db) (ops : List QueueOp) : Db :=
  ops.foldl applyQueueOp db

/-- Number of queues flagged as default. -/
def defaultCount (qs : List Queue) : Nat :=
  (qs.filter (fun q => q.isDefault)).length

/-- The documented queue invariant: at most one queue has isDefault = true. -/
def atMostOneDefault (qs : List Queue) : Prop :=
  defaultCount qs ≤ 1

/-- Well-formedness of the stored queue collection: primary keys (ObjectIds)
are pairwise distinct and below the fresh-id counter. -/
def queueIdsNodup (qs : List Queue) : Prop :=
  (qs.map (fun q => q.id)).Nodup

/-- Store well-formedness for the queue collection. -/
def QueueWF (db : Db) : Prop :=
  atMostOneDefault db.queues ∧ queueIdsNodup db.queues ∧
    ∀ q ∈ db.queues, q.id < db.nextId

/-! Concrete stores and requests used to instantiate the theorems below. -/

/-- A store whose only queue is a non-default queue named "General". -/
def dbGeneralTaken : Db :=
  { users := [], queues := [⟨0, "General", "", false⟩], tickets := [], nextId := 1 }

/-- A store with one default queue. -/
def dbWithDefault : Db :=
  { users := [],
    queues := [⟨0, "General", "Default queue for all tickets", true⟩],
    tickets := [], nextId := 1 }

/-- A minimal ticket-creation input with no queue argument. -/
def inpNoQueue : TicketService.TicketInput :=
  { title := "t", description := "d", customer := 7 }

/-- A single fresh ticket in status "new". -/
def freshTicket : Ticket :=
  { id := 1, title := "a", description := "b", status := .new,
    priority := .medium, customer := 2, assignee := none, queue := 0,
    comments := [], tags := [], createdAt := 0,
    resolvedAt := none, closedAt := none }

/-- A store holding `freshTicket` and its customer (id 2). -/
def dbAssign : Db :=
  { users := [⟨2, Role.customer⟩], queues := [⟨0, "General", "", true⟩],
    tickets := [freshTicket], nextId := 3 }

/-- A ticket already resolved at instant 100. -/
def resolvedTicket : Ticket :=
  { freshTicket with status := .resolved, resolvedAt := some 100 }

/-- A patch that re-states status "resolved" and also carries an explicit
resolvedAt value, as a raw `Partial ITicket` may. -/
def resolvedPatchWithStamp : TicketService.TicketPatch :=
  { status := some .resolved, resolvedAt := some 999 }

/-- A patch that only resolves the ticket. -/
def resolvePatch : TicketService.TicketPatch :=
  { status := some .resolved }

/-- A store with a default and a non-default queue. -/
def dbTwoQueues : Db :=
  { users := [], queues := [⟨0, "General", "", true⟩, ⟨1, "Billing", "", false⟩],
    tickets := [], nextId := 2 }

/-- A sample sequence of queue mutations. -/
def opsSample : List QueueOp :=
  [QueueOp.create ⟨"Support", none, some true⟩,
   QueueOp.update 1 ⟨none, none, some true⟩,
   QueueOp.delete 0]

/-- The customer who owns `freshTicket`. -/
def ownerCustomer : User := ⟨2, Role.customer⟩

/-- A different customer. -/
def otherCustomer : User := ⟨9, Role.customer⟩

/-- An agent. -/
def someAgent : User := ⟨5, Role.agent⟩

/-- A store holding `freshTicket`, its owner, another customer and an agent. -/
def dbController : Db :=
  { users := [⟨2, Role.customer⟩, ⟨9, Role.customer⟩, ⟨5, Role.agent⟩],
    queues := [⟨0, "General", "", true⟩],
    tickets := [freshTicket], nextId := 10 }

/-- A body patching only the title. -/
def bodyTitleOnly : TicketController.Body := [("title", JVal.jstr "new title")]

/-- A body touching a field outside the customer allow-list. -/
def bodyWithStatus : TicketController.Body :=
  [("title", JVal.jstr "new title"), ("status", JVal.jstr "closed")]

/-- Three tickets with distinct creation instants, two of them high-priority
and open, for exercising list filtering and pagination. -/
def dbList : Db :=
  { users := [], queues := [⟨0, "General", "", true⟩],
    tickets :=
      [{ freshTicket with id := 1, createdAt := 10, status := .«open», priority := .high },
       { freshTicket with id := 2, createdAt := 20, status := .«open», priority := .low },
       { freshTicket with id := 3, createdAt := 30, status := .«open», priority := .high },
       { freshTicket with id := 4, createdAt := 40, status := .closed, priority := .high }],
    nextId := 5 }

/-- The `status=open, priority=high` filter on page 1 with page size 1. -/
def filterOpenHigh : TicketService.TicketFilters :=
  { status := some (.one .«open»), priority := some (.one .high),
    page := some 1, limit := some 1 }

namespace QueueService

theorem defaultCount_nil : defaultCount [] = 0 := rfl

theorem defaultCount_cons (q : Queue) (qs : List Queue) :
    defaultCount (q :: qs) =
      (if q.isDefault then 1 else 0) + defaultCount qs := by
  by_cases h : q.isDefault <;>
    simp [defaultCount, List.filter_cons, h, Nat.add_comm]

theorem defaultCount_append (qs rs : List Queue) :
    defaultCount (qs ++ rs) = defaultCount qs + defaultCount rs := by
  simp [defaultCount, List.filter_append]

theorem defaultCount_eq_zero_of_all_false {qs : List Queue}
    (h : ∀ q ∈ qs, q.isDefault = false) : defaultCount qs = 0 := by
  simp only [defaultCount, List.length_eq_zero]
  exact List.filter_eq_nil_iff.mpr (by simpa using h)

theorem clearDefaults_isDefault_false {qs : List Queue} :
    ∀ q ∈ clearDefaults qs, q.isDefault = false := by
  intro q hq
  simp only [clearDefaults, List.mem_map] at hq
  obtain ⟨r, _, hr⟩ := hq
  by_cases h : r.isDefault <;> simp [h] at hr <;> simp [← hr]
  · simp [← hr, h]

theorem defaultCount_clearDefaults (qs : List Queue) :
    defaultCount (clearDefaults qs) = 0 :=
  defaultCount_eq_zero_of_all_false clearDefaults_isDefault_false

theorem clearDefaults_map_id (qs : List Queue) :
    (clearDefaults qs).map (fun q => q.id) = qs.map (fun q => q.id) := by
  simp only [clearDefaults, List.map_map]
  refine List.map_congr_left (fun q _ => ?_)
  by_cases h : q.isDefault <;> simp [h]

theorem clearDefaults_of_no_default {qs : List Queue}
    (h : ∀ q ∈ qs, q.isDefault = false) : clearDefaults qs = qs := by
  have := List.map_congr_left (l := qs)
    (f := fun q => if q.isDefault then { q with isDefault := false } else q)
    (g := id) (fun q hq => by simp [h q hq])
  simpa [clearDefaults] using this

theorem defaultCount_map_le {qs : List Queue} {f : Queue → Queue}
    (h : ∀ r ∈ qs, (f r).isDefault = true → r.isDefault = true) :
    defaultCount (qs.map f) ≤ defaultCount qs := by
  induction qs with
  | nil => simp [defaultCount]
  | cons a t ih =>
    have ht : ∀ r ∈ t, (f r).isDefault = true → r.isDefault = true :=
      fun r hr => h r (List.mem_cons_of_mem _ hr)
    have ha := h a (List.mem_cons_self _ _)
    have hct := ih ht
    simp only [List.map_cons, defaultCount_cons]
    by_cases hfa : (f a).isDefault
    · have haa := ha hfa
      simp only [hfa, haa, if_true]
      omega
    · by_cases haa : a.isDefault <;> simp [hfa, haa] <;> omega

theorem defaultCount_replace_le_one {qs : List Queue} (q' : Queue) (id : Nat)
    (h0 : ∀ r ∈ qs, r.isDefault = false)
    (hnd : (qs.map (fun q => q.id)).Nodup) :
    defaultCount (qs.map (fun r => if r.id == id then q' else r)) ≤ 1 := by
  induction qs with
  | nil => simp [defaultCount]
  | cons a t ih =>
    have h0t : ∀ r ∈ t, r.isDefault = false :=
      fun r hr => h0 r (List.mem_cons_of_mem _ hr)
    have hndt : (t.map (fun q => q.id)).Nodup := (List.nodup_cons.mp hnd).2
    have hanot : a.id ∉ t.map (fun q => q.id) := (List.nodup_cons.mp hnd).1
    by_cases ha : a.id == id
    · have haid : a.id = id := by simpa using ha
      have htid : ∀ r ∈ t, (r.id == id) = false := by
        intro r hr
        have : r.id ≠ a.id := by
          intro hcon
          exact hanot (by
            rw [← hcon]
            exact List.mem_map_of_mem _ hr)
        simp [haid ▸ this]
      have hmap : t.map (fun r => if r.id == id then q' else r) = t := by
        have := List.map_congr_left (l := t)
          (f := fun r => if r.id == id then q' else r) (g := fun r => r)
          (fun r hr => by simp [htid r hr])
        simpa using this
      simp only [List.map_cons, ha, if_true, defaultCount_cons, hmap,
        defaultCount_eq_zero_of_all_false h0t]
      by_cases hq' : q'.isDefault <;> simp [hq']
    · simp only [List.map_cons, ha, Bool.false_eq_true, if_false, defaultCount_cons,
        h0 a (List.mem_cons_self _ _)]
      simpa using ih h0t hndt

theorem queue_mem_unique {qs : List Queue} {q r : Queue}
    (hnd : (qs.map (fun q => q.id)).Nodup)
    (hq : q ∈ qs) (hr : r ∈ qs) (hid : q.id = r.id) : q = r :=
  List.inj_on_of_nodup_map hnd hq hr hid

theorem idBound_iff (qs : List Queue) (n : Nat) :
    (∀ q ∈ qs, q.id < n) ↔ ∀ x ∈ qs.map (fun q => q.id), x < n := by
  simp

theorem WF_of_insert {base : List Queue} {db : Db} (i : QueueInput)
    (hids : base.map (fun q => q.id) = db.queues.map (fun q => q.id))
    (h2 : queueIdsNodup db.queues) (h3 : ∀ q ∈ db.queues, q.id < db.nextId)
    (hflag : defaultCount base + (if i.isDefault.getD false then 1 else 0) ≤ 1) :
    QueueWF { db with
      queues := base ++ [{ id := db.nextId, name := i.name,
                           description := i.description.getD "",
                           isDefault := i.isDefault.getD false }],
      nextId := db.nextId + 1 } := by
  have hfresh : db.nextId ∉ db.queues.map (fun q => q.id) := by
    intro hmem
    have := ((idBound_iff db.queues db.nextId).mp h3) _ hmem
    omega
  refine ⟨?_, ?_, ?_⟩
  · simpa [atMostOneDefault, defaultCount_append, defaultCount_cons,
      defaultCount_nil] using hflag
  · simp only [queueIdsNodup, List.map_append, hids]
    rw [List.nodup_append]
    exact ⟨h2, List.nodup_singleton _,
      by simpa [List.Disjoint] using fun hmem => hfresh hmem⟩
  · intro q hq
    show q.id < db.nextId + 1
    simp only [List.mem_append, List.mem_singleton] at hq
    rcases hq with hq | hq
    · have : q.id ∈ base.map (fun q => q.id) := List.mem_map_of_mem _ hq
      rw [hids] at this
      have := ((idBound_iff db.queues db.nextId).mp h3) _ this
      omega
    · simp [hq]

theorem WF_of_queues_ids {base : List Queue} {db : Db}
    (hids : base.map (fun q => q.id) = db.queues.map (fun q => q.id))
    (hcnt : defaultCount base ≤ 1)
    (h2 : queueIdsNodup db.queues) (h3 : ∀ q ∈ db.queues, q.id < db.nextId) :
    QueueWF { db with queues := base } := by
  refine ⟨hcnt, ?_, ?_⟩
  · simpa [queueIdsNodup, hids] using h2
  · intro q hq
    have : q.id ∈ base.map (fun q => q.id) := List.mem_map_of_mem _ hq
    rw [hids] at this
    exact ((idBound_iff db.queues db.nextId).mp h3) _ this

theorem createQueue_preserves_WF (db : Db) (i : QueueInput)
    (h : QueueWF db) : QueueWF (createQueue db i).2 := by
  obtain ⟨h1, h2, h3⟩ := h
  cases hf : i.isDefault.getD false with
  | true =>
    cases ht : queueNameTaken (clearDefaults db.queues) i.name with
    | true =>
      have hstate : (createQueue db i).2 = { db with queues := clearDefaults db.queues } := by
        simp [createQueue, hf, ht]
      rw [hstate]
      exact WF_of_queues_ids (clearDefaults_map_id db.queues)
        (by simp [defaultCount_clearDefaults]) h2 h3
    | false =>
      have hstate : (createQueue db i).2 = { db with
          queues := clearDefaults db.queues ++
            [{ id := db.nextId, name := i.name,
               description := i.description.getD "",
               isDefault := i.isDefault.getD false }],
          nextId := db.nextId + 1 } := by
        simp [createQueue, hf, ht]
      rw [hstate]
      exact WF_of_insert i (clearDefaults_map_id db.queues) h2 h3
        (by simp [defaultCount_clearDefaults, hf])
  | false =>
    cases ht : queueNameTaken db.queues i.name with
    | true =>
      have hstate : (createQueue db i).2 = { db with queues := db.queues } := by
        simp [createQueue, hf, ht]
      rw [hstate]
      exact ⟨h1, h2, h3⟩
    | false =>
      have hstate : (createQueue db i).2 = { db with
          queues := db.queues ++
            [{ id := db.nextId, name := i.name,
               description := i.description.getD "",
               isDefault := i.isDefault.getD false }],
          nextId := db.nextId + 1 } := by
        simp [createQueue, hf, ht]
      rw [hstate]
      exact WF_of_insert i rfl h2 h3 (by simpa [hf] using h1)

theorem map_id_replace (qs : List Queue) (q q' : Queue) (id : Nat)
    (hq : q.id = id) (hq' : q'.id = q.id) :
    (qs.map (fun r => if r.id == id then q' else r)).map (fun r => r.id) =
      qs.map (fun r => r.id) := by
  rw [List.map_map]
  refine List.map_congr_left (fun r _ => ?_)
  by_cases hr : (r.id == id)
  · have hrid : r.id = id := by simpa using hr
    simp [hr, hq', hq, hrid, Function.comp]
  · simp [hr, Function.comp]

theorem updateQueue_queues_map_id (db : Db) (id : Nat) (p : QueuePatch) :
    ((updateQueue db id p).2.queues).map (fun q => q.id) =
      db.queues.map (fun q => q.id) := by
  cases hf : p.isDefault.getD false with
  | true =>
    cases hfind : (clearDefaults db.queues).find? (fun q => q.id == id) with
    | none =>
      have hstate : (updateQueue db id p).2.queues = clearDefaults db.queues := by
        simp [updateQueue, hf, hfind]
      rw [hstate, clearDefaults_map_id]
    | some q =>
      have hqid : q.id = id := by
        simpa using List.find?_some (p := fun q : Queue => q.id == id) hfind
      cases hc : (clearDefaults db.queues).any
          (fun r => r.id != id && r.name == (applyQueuePatch q p).name) with
      | true =>
        have hstate : (updateQueue db id p).2.queues = clearDefaults db.queues := by
          simp [updateQueue, hf, hfind, hc]
        rw [hstate, clearDefaults_map_id]
      | false =>
        have hstate : (updateQueue db id p).2.queues =
            (clearDefaults db.queues).map
              (fun r => if r.id == id then applyQueuePatch q p else r) := by
          simp [updateQueue, hf, hfind, hc]
        rw [hstate, map_id_replace _ q (applyQueuePatch q p) id hqid (by simp [applyQueuePatch]),
          clearDefaults_map_id]
  | false =>
    cases hfind : db.queues.find? (fun q => q.id == id) with
    | none =>
      have hstate : (updateQueue db id p).2.queues = db.queues := by
        simp [updateQueue, hf, hfind]
      rw [hstate]
    | some q =>
      have hqid : q.id = id := by
        simpa using List.find?_some (p := fun q : Queue => q.id == id) hfind
      cases hc : db.queues.any
          (fun r => r.id != id && r.name == (applyQueuePatch q p).name) with
      | true =>
        have hstate : (updateQueue db id p).2.queues = db.queues := by
          simp [updateQueue, hf, hfind, hc]
        rw [hstate]
      | false =>
        have hstate : (updateQueue db id p).2.queues =
            db.queues.map (fun r => if r.id == id then applyQueuePatch q p else r) := by
          simp [updateQueue, hf, hfind, hc]
        rw [hstate, map_id_replace _ q (applyQueuePatch q p) id hqid (by simp [applyQueuePatch])]

theorem updateQueue_nextId (db : Db) (id : Nat) (p : QueuePatch) :
    (updateQueue db id p).2.nextId = db.nextId := by
  cases hf : p.isDefault.getD false with
  | true =>
    cases hfind : (clearDefaults db.queues).find? (fun q => q.id == id) with
    | none => simp [updateQueue, hf, hfind]
    | some q =>
      cases hc : (clearDefaults db.queues).any
          (fun r => r.id != id && r.name == (applyQueuePatch q p).name) with
      | true => simp [updateQueue, hf, hfind, hc]
      | false => simp [updateQueue, hf, hfind, hc]
  | false =>
    cases hfind : db.queues.find? (fun q => q.id == id) with
    | none => simp [updateQueue, hf, hfind]
    | some q =>
      cases hc : db.queues.any
          (fun r => r.id != id && r.name == (applyQueuePatch q p).name) with
      | true => simp [updateQueue, hf, hfind, hc]
      | false => simp [updateQueue, hf, hfind, hc]

theorem updateQueue_defaultCount (db : Db) (id : Nat) (p : QueuePatch)
    (h1 : atMostOneDefault db.queues) (h2 : queueIdsNodup db.queues) :
    atMostOneDefault (updateQueue db id p).2.queues := by
  cases hf : p.isDefault.getD false with
  | true =>
    cases hfind : (clearDefaults db.queues).find? (fun q => q.id == id) with
    | none =>
      have hstate : (updateQueue db id p).2.queues = clearDefaults db.queues := by
        simp [updateQueue, hf, hfind]
      rw [atMostOneDefault, hstate, defaultCount_clearDefaults]
      omega
    | some q =>
      cases hc : (clearDefaults db.queues).any
          (fun r => r.id != id && r.name == (applyQueuePatch q p).name) with
      | true =>
        have hstate : (updateQueue db id p).2.queues = clearDefaults db.queues := by
          simp [updateQueue, hf, hfind, hc]
        rw [atMostOneDefault, hstate, defaultCount_clearDefaults]
        omega
      | false =>
        have hstate : (updateQueue db id p).2.queues =
            (clearDefaults db.queues).map
              (fun r => if r.id == id then applyQueuePatch q p else r) := by
          simp [updateQueue, hf, hfind, hc]
        rw [atMostOneDefault, hstate]
        refine defaultCount_replace_le_one _ id clearDefaults_isDefault_false ?_
        rw [clearDefaults_map_id]
        exact h2
  | false =>
    have hfval : p.isDefault = none ∨ p.isDefault = some false := by
      cases hpd : p.isDefault with
      | none => exact Or.inl rfl
      | some b =>
        cases b with
        | false => exact Or.inr rfl
        | true => rw [hpd] at hf; simp at hf
    cases hfind : db.queues.find? (fun q => q.id == id) with
    | none =>
      have hstate : (updateQueue db id p).2.queues = db.queues := by
        simp [updateQueue, hf, hfind]
      rw [hstate]
      exact h1
    | some q =>
      have hqid : q.id = id := by
        simpa using List.find?_some (p := fun q : Queue => q.id == id) hfind
      have hqmem : q ∈ db.queues := List.mem_of_find?_eq_some hfind
      cases hc : db.queues.any
          (fun r => r.id != id && r.name == (applyQueuePatch q p).name) with
      | true =>
        have hstate : (updateQueue db id p).2.queues = db.queues := by
          simp [updateQueue, hf, hfind, hc]
        rw [hstate]
        exact h1
      | false =>
        have hstate : (updateQueue db id p).2.queues =
            db.queues.map (fun r => if r.id == id then applyQueuePatch q p else r) := by
          simp [updateQueue, hf, hfind, hc]
        rw [atMostOneDefault, hstate]
        refine le_trans (defaultCount_map_le ?_) h1
        intro r hr hdef
        by_cases hrid : (r.id == id)
        · rw [if_pos hrid] at hdef
          rcases hfval with hpd | hpd
        <;> simp only [applyQueuePatch, hpd, Option.getD_none, Option.getD_some] at hdef
          · have hreq : r = q := queue_mem_unique h2 hr hqmem (by
              rw [hqid]
              simpa using hrid)
            rw [hreq]
            exact hdef
          · exact absurd hdef (by simp)
        · rw [if_neg hrid] at hdef
          exact hdef

theorem updateQueue_preserves_WF (db : Db) (id : Nat) (p : QueuePatch)
    (h : QueueWF db) : QueueWF (updateQueue db id p).2 := by
  obtain ⟨h1, h2, h3⟩ := h
  have hids := updateQueue_queues_map_id db id p
  refine ⟨updateQueue_defaultCount db id p h1 h2, ?_, ?_⟩
  · rw [queueIdsNodup, hids]
    exact h2
  · intro q hq
    rw [updateQueue_nextId]
    have : q.id ∈ ((updateQueue db id p).2.queues).map (fun q => q.id) :=
      List.mem_map_of_mem _ hq
    rw [hids] at this
    exact ((idBound_iff db.queues db.nextId).mp h3) _ this

theorem defaultCount_sublist {l₁ l₂ : List Queue} (h : l₁.Sublist l₂) :
    defaultCount l₁ ≤ defaultCount l₂ :=
  List.Sublist.length_le (List.Sublist.filter _ h)

theorem deleteQueue_preserves_WF (db : Db) (id : Nat)
    (h : QueueWF db) : QueueWF (deleteQueue db id).2 := by
  obtain ⟨h1, h2, h3⟩ := h
  cases hfind : db.queues.find? (fun q => q.id == id) with
  | none =>
    have hstate : (deleteQueue db id).2 = db := by simp [deleteQueue, hfind]
    rw [hstate]
    exact ⟨h1, h2, h3⟩
  | some q =>
    cases hd : q.isDefault with
    | true =>
      have hstate : (deleteQueue db id).2 = db := by simp [deleteQueue, hfind, hd]
      rw [hstate]
      exact ⟨h1, h2, h3⟩
    | false =>
      have hstate : (deleteQueue db id).2 =
          { db with queues := db.queues.filter (fun r => r.id != id) } := by
        simp [deleteQueue, hfind, hd]
      rw [hstate]
      have hsub : (db.queues.filter (fun r => r.id != id)).Sublist db.queues :=
        List.filter_sublist _
      refine ⟨le_trans (defaultCount_sublist hsub) h1, ?_, ?_⟩
      · exact List.Nodup.sublist (List.Sublist.map _ hsub) h2
      · intro r hr
        exact h3 r (List.mem_filter.mp hr).1

end QueueService

/-- Every reachable queue mutation preserves well-formedness of the queue
collection, in particular the at-most-one-default invariant. -/
theorem applyQueueOp_preserves_WF (db : Db) (op : QueueOp)
    (h : QueueWF db) : QueueWF (applyQueueOp db op) := by
  cases op with
  | create i => exact QueueService.createQueue_preserves_WF db i h
  | update id p => exact QueueService.updateQueue_preserves_WF db id p h
  | delete id => exact QueueService.deleteQueue_preserves_WF db id h

/-- Sequences of queue mutations preserve well-formedness. -/
theorem runQueueOps_preserves_WF (ops : List QueueOp) (db : Db)
    (h : QueueWF db) : QueueWF (runQueueOps db ops) := by
  induction ops generalizing db with
  | nil => exact h
  | cons op rest ih => exact ih (applyQueueOp db op) (applyQueueOp_preserves_WF db op h)

/-- Nothing with the removed id survives `findByIdAndDelete`. -/
theorem find?_id_filter_ne (qs : List Queue) (id : Nat) :
    (qs.filter (fun r => r.id != id)).find? (fun r => r.id == id) = none := by
  rw [List.find?_eq_none]
  intro x hx
  have hne := (List.mem_filter.mp hx).2
  simpa using by simpa using hne

/-! Claim theorems. -/

/-- Claim C4: after any sequence of createQueue, updateQueue and deleteQueue
operations executed sequentially, starting from a well-formed store satisfying
the invariant, at most one Queue has isDefault = true; and deleteQueue never
removes a default Queue. -/
theorem C4_default_queue_invariant (db : Db) (ops : List QueueOp)
    (h1 : atMostOneDefault db.queues) (h2 : queueIdsNodup db.queues)
    (h3 : ∀ q ∈ db.queues, q.id < db.nextId) :
    atMostOneDefault (runQueueOps db ops).queues ∧
    ∀ id q, q ∈ db.queues → q.isDefault = true →
      q ∈ (QueueService.deleteQueue db id).2.queues := by
  constructor
  · exact (runQueueOps_preserves_WF ops db ⟨h1, h2, h3⟩).1
  · intro id q hq hdef
    cases hfind : db.queues.find? (fun r => r.id == id) with
    | none =>
      have hstate : (QueueService.deleteQueue db id).2 = db := by
        simp [QueueService.deleteQueue, hfind]
      rw [hstate]
      exact hq
    | some r =>
      cases hd : r.isDefault with
      | true =>
        have hstate : (QueueService.deleteQueue db id).2 = db := by
          simp [QueueService.deleteQueue, hfind, hd]
        rw [hstate]
        exact hq
      | false =>
        have hstate : (QueueService.deleteQueue db id).2 =
            { db with queues := db.queues.filter (fun r => r.id != id) } := by
          simp [QueueService.deleteQueue, hfind, hd]
        rw [hstate]
        have hrid : r.id = id := by
          simpa using List.find?_some (p := fun q : Queue => q.id == id) hfind
        have hrmem : r ∈ db.queues := List.mem_of_find?_eq_some hfind
        refine List.mem_filter.mpr ⟨hq, ?_⟩
        have hqne : q.id ≠ id := by
          intro hcon
          have : q = r := QueueService.queue_mem_unique h2 hq hrmem (by rw [hcon, hrid])
          rw [this] at hdef
          rw [hdef] at hd
          exact Bool.true_eq_false.mp hd
        simpa using hqne

/-- Claim C4 witness at a concrete store and operation sequence. -/
theorem C4_default_queue_invariant_witness :
    atMostOneDefault (runQueueOps dbTwoQueues opsSample).queues ∧
    (⟨0, "General", "", true⟩ : Queue) ∈
      (QueueService.deleteQueue dbTwoQueues 1).2.queues := by
  refine ⟨(C4_default_queue_invariant dbTwoQueues opsSample
      (by unfold atMostOneDefault; decide) (by unfold queueIdsNodup; decide)
      (by decide)).1,
    (C4_default_queue_invariant dbTwoQueues opsSample
      (by unfold atMostOneDefault; decide) (by unfold queueIdsNodup; decide)
      (by decide)).2 1 ⟨0, "General", "", true⟩
      (by decide) rfl⟩

/-- Claim C8: deleteQueue on a default queue fails with "Cannot delete the
default queue" and the queue stays stored and retrievable; on a non-default
queue it succeeds and getQueueById of that id afterwards fails with
"Queue not found". -/
theorem C8_deleteQueue_default_guard (db : Db) (id : Nat) (q : Queue)
    (hfind : db.queues.find? (fun r => r.id == id) = some q) :
    (q.isDefault = true →
       QueueService.deleteQueue db id =
         (.error "Cannot delete the default queue", db) ∧
       QueueService.getQueueById db id = .ok q) ∧
    (q.isDefault = false →
       (QueueService.deleteQueue db id).1 = .ok "Queue deleted successfully" ∧
       QueueService.getQueueById (QueueService.deleteQueue db id).2 id =
         .error "Queue not found") := by
  constructor
  · intro hd
    constructor
    · simp [QueueService.deleteQueue, hfind, hd]
    · simp [QueueService.getQueueById, hfind]
  · intro hd
    constructor
    · simp [QueueService.deleteQueue, hfind, hd]
    · have hstate : (QueueService.deleteQueue db id).2 =
          { db with queues := db.queues.filter (fun r => r.id != id) } := by
        simp [QueueService.deleteQueue, hfind, hd]
      simp only [QueueService.getQueueById, hstate]
      rw [find?_id_filter_ne]

/-- Claim C8 witness: concrete default and non-default deletions. -/
theorem C8_deleteQueue_default_guard_witness :
    (QueueService.deleteQueue dbTwoQueues 0 =
       (.error "Cannot delete the default queue", dbTwoQueues) ∧
     QueueService.getQueueById dbTwoQueues 0 = .ok ⟨0, "General", "", true⟩) ∧
    ((QueueService.deleteQueue dbTwoQueues 1).1 = .ok "Queue deleted successfully" ∧
     QueueService.getQueueById (QueueService.deleteQueue dbTwoQueues 1).2 1 =
       .error "Queue not found") :=
  ⟨(C8_deleteQueue_default_guard dbTwoQueues 0 ⟨0, "General", "", true⟩ rfl).1 rfl,
   (C8_deleteQueue_default_guard dbTwoQueues 1 ⟨1, "Billing", "", false⟩ rfl).2 rfl⟩

/-- Claim C10: every ticket returned by a successful createTicket has status
"new", no comments, no assignee and unset resolvedAt/closedAt, for every
creation input (the input record cannot carry those fields). -/
theorem C10_created_ticket_defaults (now : Nat) (db : Db)
    (inp : TicketService.TicketInput) (t : Ticket)
    (h : (TicketService.createTicket now db inp).1 = .ok t) :
    t.status = .new ∧ t.comments = [] ∧ t.assignee = none ∧
      t.resolvedAt = none ∧ t.closedAt = none := by
  cases hq : inp.queue with
  | some qid =>
    simp only [TicketService.createTicket, hq] at h
    have := (Except.ok.injEq _ _).mp h
    rw [← this]
    simp [TicketService.mkNewTicket]
  | none =>
    cases hdq : QueueService.getDefaultQueue db with
    | ok dq =>
      simp only [TicketService.createTicket, hq, hdq] at h
      have := (Except.ok.injEq _ _).mp h
      rw [← this]
      simp [TicketService.mkNewTicket]
    | error e =>
      rcases hcg : QueueService.createQueue db
          ⟨"General", some "Default queue for all tickets", some true⟩ with ⟨r, db2⟩
      cases r with
      | error e2 =>
        simp only [TicketService.createTicket, hq, hdq, hcg] at h
        exact absurd h (by simp)
      | ok gq =>
        simp only [TicketService.createTicket, hq, hdq, hcg] at h
        have := (Except.ok.injEq _ _).mp h
        rw [← this]
        simp [TicketService.mkNewTicket]

/-- Claim C1 counterexample: in a store with no default queue but a
non-default queue already named "General", createTicket with no queue argument
creates no queue and no ticket — the synthesized "General" insert hits the
unique name index — where the claim promises a new default "General" queue
and a ticket referencing it. -/
theorem C1_counterexample :
    dbGeneralTaken.queues.find? (fun q => q.isDefault) = none ∧
    (TicketService.createTicket 5 dbGeneralTaken inpNoQueue).1 =
      .error "E11000 duplicate key error: queues index: name" ∧
    (TicketService.createTicket 5 dbGeneralTaken inpNoQueue).2 = dbGeneralTaken :=
  ⟨rfl, rfl, rfl⟩

/-- Claim C1 (amended): for createTicket with no queue argument: if a default
queue exists, the created ticket references it and the queue collection is
unchanged; if no default exists and the name "General" is free, exactly one
new queue named "General" with isDefault = true is inserted and the ticket
references it; if no default exists but the name "General" is already taken,
the call fails with the duplicate-name error and neither a queue nor a ticket
is created. -/
theorem C1_default_queue_on_create (now : Nat) (db : Db)
    (inp : TicketService.TicketInput) (hq : inp.queue = none) :
    (∀ dq, db.queues.find? (fun q => q.isDefault) = some dq →
       ∃ t, (TicketService.createTicket now db inp).1 = .ok t ∧
         t.queue = dq.id ∧
         (TicketService.createTicket now db inp).2.queues = db.queues) ∧
    (db.queues.find? (fun q => q.isDefault) = none →
       QueueService.queueNameTaken db.queues "General" = false →
       ∃ t gq, (TicketService.createTicket now db inp).1 = .ok t ∧
         (TicketService.createTicket now db inp).2.queues = db.queues ++ [gq] ∧
         gq.name = "General" ∧ gq.isDefault = true ∧ t.queue = gq.id) ∧
    (db.queues.find? (fun q => q.isDefault) = none →
       QueueService.queueNameTaken db.queues "General" = true →
       (TicketService.createTicket now db inp).1 =
         .error "E11000 duplicate key error: queues index: name" ∧
       (TicketService.createTicket now db inp).2.queues = db.queues ∧
       (TicketService.createTicket now db inp).2.tickets = db.tickets) := by
  refine ⟨?_, ?_, ?_⟩
  · intro dq hdq
    have hgd : QueueService.getDefaultQueue db = .ok dq := by
      simp [QueueService.getDefaultQueue, hdq]
    refine ⟨TicketService.mkNewTicket now db.nextId inp dq.id, ?_, rfl, ?_⟩
    · simp [TicketService.createTicket, hq, hgd]
    · simp [TicketService.createTicket, hq, hgd]
  · intro hnone hfree
    have hall : ∀ q ∈ db.queues, q.isDefault = false := by
      intro q hq2
      have := List.find?_eq_none.mp hnone q hq2
      simpa using this
    have hgd : QueueService.getDefaultQueue db = .error "No default queue found" := by
      simp [QueueService.getDefaultQueue, hnone]
    have hclear : QueueService.clearDefaults db.queues = db.queues :=
      QueueService.clearDefaults_of_no_default hall
    have hcg : QueueService.createQueue db
        ⟨"General", some "Default queue for all tickets", some true⟩ =
        (.ok ⟨db.nextId, "General", "Default queue for all tickets", true⟩,
         { db with
           queues := db.queues ++
             [⟨db.nextId, "General", "Default queue for all tickets", true⟩],
           nextId := db.nextId + 1 }) := by
      simp [QueueService.createQueue, hclear, hfree]
    refine ⟨TicketService.mkNewTicket now (db.nextId + 1) inp db.nextId,
      ⟨db.nextId, "General", "Default queue for all tickets", true⟩, ?_, ?_, rfl, rfl, rfl⟩
    · simp [TicketService.createTicket, hq, hgd, hcg]
    · simp [TicketService.createTicket, hq, hgd, hcg]
  · intro hnone htaken
    have hall : ∀ q ∈ db.queues, q.isDefault = false := by
      intro q hq2
      have := List.find?_eq_none.mp hnone q hq2
      simpa using this
    have hgd : QueueService.getDefaultQueue db = .error "No default queue found" := by
      simp [QueueService.getDefaultQueue, hnone]
    have hclear : QueueService.clearDefaults db.queues = db.queues :=
      QueueService.clearDefaults_of_no_default hall
    have hcg : QueueService.createQueue db
        ⟨"General", some "Default queue for all tickets", some true⟩ =
        (.error "E11000 duplicate key error: queues index: name",
         { db with queues := db.queues }) := by
      simp [QueueService.createQueue, hclear, htaken]
    refine ⟨?_, ?_, ?_⟩ <;> simp [TicketService.createTicket, hq, hgd, hcg]

/-- Claim C1 witness: a store holding a default queue keeps its queue
collection unchanged on ticket creation. -/
theorem C1_default_queue_on_create_witness :
    (TicketService.createTicket 5 dbWithDefault inpNoQueue).2.queues =
      dbWithDefault.queues := by
  obtain ⟨t, h1, h2, h3⟩ := (C1_default_queue_on_create 5 dbWithDefault
    inpNoQueue rfl).1 ⟨0, "General", "Default queue for all tickets", true⟩ rfl
  exact h3

/-- Claim C2 (code bug): assignTicket places the aggregation expression
`$cond` inside a plain (non-pipeline) `$set` update document, where MongoDB
and Mongoose treat it as a literal value and never evaluate it; the cast of
that object to the String `status` path fails, so the call errors and neither
the assignee nor the new-to-open transition that the inline code comment promises
ever happens — here evaluated on a stored ticket in status "new". -/
theorem C2_assignTicket_cond_never_evaluated :
    freshTicket.status = Status.new ∧
    (TicketService.assignTicket dbAssign 1 42).1 =
      .error "Cast to string failed at path status" ∧
    (TicketService.assignTicket dbAssign 1 42).2 = dbAssign ∧
    ∀ (t : Ticket) (aid : Nat),
      TicketService.applyPlainSet t (TicketService.assignUpdateDoc aid) =
        .error "Cast to string failed at path status" := by
  refine ⟨rfl, rfl, rfl, ?_⟩
  intro t aid
  simp [TicketService.applyPlainSet, TicketService.applySetField,
    TicketService.assignUpdateDoc, TicketService.condStatusExpr,
    TicketService.castUserRef, TicketService.castStatus]

/-- Claim C3 counterexample: a patch that re-states status "resolved" while
also carrying an explicit resolvedAt value overwrites resolvedAt on a ticket
that is already resolved, where the claim promises resolvedAt is left
unchanged. -/
theorem C3_counterexample :
    resolvedTicket.status = Status.resolved ∧
    resolvedTicket.resolvedAt = some 100 ∧
    resolvedPatchWithStamp.status = some Status.resolved ∧
    (TicketService.updateTicketCore 5 resolvedTicket resolvedPatchWithStamp).resolvedAt =
      some 999 :=
  ⟨rfl, rfl, rfl, rfl⟩

/-- Claim C3 (amended): updateTicket with patch.status = "resolved" sets
resolvedAt to now whenever the previous status was not "resolved" — even if
the patch itself carries a resolvedAt value, the stamp overwrites it — hence
re-sets it on re-entry; when the ticket is already "resolved" it leaves
resolvedAt unchanged provided the patch does not itself carry a resolvedAt
field; symmetrically for "closed" and closedAt, with the proviso on the
already-closed arm only. -/
theorem C3_status_timestamping (now : Nat) (t : Ticket)
    (p : TicketService.TicketPatch) :
    (p.status = some Status.resolved → t.status ≠ Status.resolved →
       (TicketService.updateTicketCore now t p).resolvedAt = some now) ∧
    (p.status = some Status.resolved → t.status = Status.resolved →
       p.resolvedAt = none →
       (TicketService.updateTicketCore now t p).resolvedAt = t.resolvedAt) ∧
    (p.status = some Status.closed → t.status ≠ Status.closed →
       (TicketService.updateTicketCore now t p).closedAt = some now) ∧
    (p.status = some Status.closed → t.status = Status.closed →
       p.closedAt = none →
       (TicketService.updateTicketCore now t p).closedAt = t.closedAt) := by
  refine ⟨?_, ?_, ?_, ?_⟩
  · intro hs hts
    simp [TicketService.updateTicketCore, TicketService.stampTransitions,
      TicketService.applyTicketPatch, hs, hts]
  · intro hs hts hres
    simp [TicketService.updateTicketCore, TicketService.stampTransitions,
      TicketService.applyTicketPatch, hs, hts, hres]
  · intro hs hts
    simp [TicketService.updateTicketCore, TicketService.stampTransitions,
      TicketService.applyTicketPatch, hs, hts]
  · intro hs hts hclo
    simp [TicketService.updateTicketCore, TicketService.stampTransitions,
      TicketService.applyTicketPatch, hs, hts, hclo]

/-- Claim C3 witness: resolving a fresh ticket stamps resolvedAt with now,
also when the patch itself carries an explicit resolvedAt value. -/
theorem C3_status_timestamping_witness :
    (TicketService.updateTicketCore 9 freshTicket resolvePatch).resolvedAt = some 9 ∧
    (TicketService.updateTicketCore 9 freshTicket
      resolvedPatchWithStamp).resolvedAt = some 9 :=
  ⟨(C3_status_timestamping 9 freshTicket resolvePatch).1 rfl (by decide),
   (C3_status_timestamping 9 freshTicket resolvedPatchWithStamp).1 rfl (by decide)⟩

/-- A ticket owned by the actor never trips the populated-ownership guard. -/
theorem customerOwnsMismatch_false_of_own (db : Db) (actor : User) (t : Ticket)
    (hown : t.customer = actor.id) :
    TicketController.customerOwnsMismatch db actor t = false := by
  unfold TicketController.customerOwnsMismatch
  cases hcu : db.users.find? (fun u => u.id == t.customer) with
  | none => rfl
  | some cu =>
    have hcuid : cu.id = t.customer := by
      simpa using List.find?_some (p := fun u : User => u.id == t.customer) hcu
    simp [hcuid, hown]

/-- A body with no key outside the allow-list yields no value for any key
outside the allow-list. -/
theorem lookupBody_none_of_no_disallowed {body : TicketController.Body} {k : String}
    (h : TicketController.hasDisallowedUpdates body = false)
    (hk : ¬ k ∈ TicketController.allowedUpdates) :
    TicketController.lookupBody body k = none := by
  have hall : ∀ kv ∈ body, kv.1 ∈ TicketController.allowedUpdates := by
    intro kv hkv
    simp only [TicketController.hasDisallowedUpdates, List.any_eq_false,
      List.mem_map] at h
    have := h kv.1 ⟨kv, hkv, rfl⟩
    simpa using this
  have hfind : body.find? (fun kv => kv.1 == k) = none := by
    rw [List.find?_eq_none]
    intro kv hkv
    simp only [beq_iff_eq]
    intro hcon
    exact hk (hcon ▸ hall kv hkv)
  simp [TicketController.lookupBody, hfind]

/-- Claim C5: a customer updating a ticket they own is rejected wholesale with
403 (store untouched) when the body holds any key outside \x7btitle,
description\x7d; when the body holds only such keys, the update is applied and
only title and description can change. -/
theorem C5_customer_update_allowlist (now : Nat) (db : Db) (actor : User)
    (id : Nat) (body : TicketController.Body) (t : Ticket)
    (hrole : actor.role = Role.customer)
    (hfind : db.tickets.find? (fun x => x.id == id) = some t)
    (hown : t.customer = actor.id) :
    (TicketController.hasDisallowedUpdates body = true →
       TicketController.updateTicket now db actor id body =
         (.error (403, "Customers can only update title and description"), db)) ∧
    (TicketController.hasDisallowedUpdates body = false →
       ∃ t', (TicketController.updateTicket now db actor id body).1 = .ok t' ∧
         (TicketController.updateTicket now db actor id body).2 =
           { db with tickets := TicketService.replaceTicket db.tickets t' } ∧
         t'.title = (TicketController.lookupBody body "title" >>=
           TicketController.asStr).getD t.title ∧
         t'.description = (TicketController.lookupBody body "description" >>=
           TicketController.asStr).getD t.description ∧
         t'.status = t.status ∧ t'.priority = t.priority ∧
         t'.customer = t.customer ∧ t'.assignee = t.assignee ∧
         t'.queue = t.queue ∧ t'.comments = t.comments ∧ t'.tags = t.tags ∧
         t'.resolvedAt = t.resolvedAt ∧ t'.closedAt = t.closedAt) := by
  have hsvc : TicketService.getTicketById db id = .ok t := by
    simp [TicketService.getTicketById, hfind]
  have hmis := customerOwnsMismatch_false_of_own db actor t hown
  constructor
  · intro hd
    simp [TicketController.updateTicket, hsvc, hrole, hmis, hd]
  · intro hd
    have hst := lookupBody_none_of_no_disallowed (k := "status") hd (by decide)
    have hpri := lookupBody_none_of_no_disallowed (k := "priority") hd (by decide)
    have htags := lookupBody_none_of_no_disallowed (k := "tags") hd (by decide)
    have hass := lookupBody_none_of_no_disallowed (k := "assignee") hd (by decide)
    have hra := lookupBody_none_of_no_disallowed (k := "resolvedAt") hd (by decide)
    have hca := lookupBody_none_of_no_disallowed (k := "closedAt") hd (by decide)
    have hp : TicketController.patchOfBody body =
        { title := TicketController.lookupBody body "title" >>= TicketController.asStr,
          description := TicketController.lookupBody body "description" >>=
            TicketController.asStr } := by
      simp [TicketController.patchOfBody, hst, hpri, htags, hass, hra, hca]
    refine ⟨TicketService.updateTicketCore now t (TicketController.patchOfBody body),
      ?_, ?_, ?_, ?_, ?_, ?_, ?_, ?_, ?_, ?_, ?_, ?_, ?_⟩
    · simp [TicketController.updateTicket, hsvc, hrole, hmis, hd,
        TicketService.updateTicket, hfind]
    · simp [TicketController.updateTicket, hsvc, hrole, hmis, hd,
        TicketService.updateTicket, hfind]
    all_goals
      rw [hp]
      simp [TicketService.updateTicketCore, TicketService.stampTransitions,
        TicketService.applyTicketPatch]

/-- Claim C5 witness: an owning customer sending a status key is refused. -/
theorem C5_customer_update_allowlist_witness :
    TicketController.updateTicket 7 dbController ownerCustomer 1 bodyWithStatus =
      (.error (403, "Customers can only update title and description"),
       dbController) :=
  (C5_customer_update_allowlist 7 dbController ownerCustomer 1 bodyWithStatus
    freshTicket rfl rfl rfl).1 rfl

/-- Every ticket in a page returned by the service matches the query. -/
theorem mem_getTickets_matches (db : Db) (f : TicketService.TicketFilters) :
    ∀ x ∈ (TicketService.getTickets db f).tickets,
      TicketService.matchesFilters f x = true := by
  intro x hx
  simp only [TicketService.getTickets] at hx
  have hx1 := List.mem_of_mem_take hx
  have hx2 := List.mem_of_mem_drop hx1
  have hx3 : x ∈ db.tickets.filter (TicketService.matchesFilters f) := by
    simpa [TicketService.sortByCreatedDesc, List.mem_mergeSort] using hx2
  exact (List.mem_filter.mp hx3).2

/-- A query pinned to one customer only matches tickets of that customer. -/
theorem matchesFilters_customer {f : TicketService.TicketFilters} {c : Nat}
    {x : Ticket} (hc : f.customer = some c)
    (h : TicketService.matchesFilters f x = true) : x.customer = c := by
  simp only [TicketService.matchesFilters, hc, Bool.and_eq_true] at h
  simpa using h.1.2

/-- Claim C6: a customer fetching a ticket they do not own gets 403 while
fetching their own ticket succeeds; every ticket a customer receives from the
list endpoint belongs to them regardless of the supplied filter; admin and
agent actors are never restricted this way. -/
theorem C6_customer_record_visibility (db : Db) (actor : User) (id : Nat)
    (t : Ticket) (cu : User)
    (hfind : db.tickets.find? (fun x => x.id == id) = some t)
    (hcu : db.users.find? (fun u => u.id == t.customer) = some cu) :
    (actor.role = Role.customer → t.customer ≠ actor.id →
       TicketController.getTicketById db actor id =
         .error (403, "Not authorized to access this ticket")) ∧
    (actor.role = Role.customer → t.customer = actor.id →
       TicketController.getTicketById db actor id = .ok t) ∧
    (actor.role ≠ Role.customer →
       TicketController.getTicketById db actor id = .ok t) ∧
    (actor.role = Role.customer →
       ∀ f x, x ∈ (TicketController.getTickets db actor f).tickets →
         x.customer = actor.id) ∧
    (actor.role ≠ Role.customer →
       ∀ f, TicketController.getTickets db actor f =
         TicketService.getTickets db f) := by
  have hsvc : TicketService.getTicketById db id = .ok t := by
    simp [TicketService.getTicketById, hfind]
  have hcuid : cu.id = t.customer := by
    simpa using List.find?_some (p := fun u : User => u.id == t.customer) hcu
  refine ⟨?_, ?_, ?_, ?_, ?_⟩
  · intro hrole hne
    have hmis : TicketController.customerOwnsMismatch db actor t = true := by
      simp [TicketController.customerOwnsMismatch, hcu, hcuid, hne]
    simp [TicketController.getTicketById, hsvc, hrole, hmis]
  · intro hrole hown
    have hmis := customerOwnsMismatch_false_of_own db actor t hown
    simp [TicketController.getTicketById, hsvc, hrole, hmis]
  · intro hrole
    simp [TicketController.getTicketById, hsvc, hrole]
  · intro hrole f x hx
    have hx2 : x ∈ (TicketService.getTickets db
        { f with customer := some actor.id }).tickets := by
      simpa [TicketController.getTickets, hrole] using hx
    exact matchesFilters_customer rfl
      (mem_getTickets_matches db { f with customer := some actor.id } x hx2)
  · intro hrole f
    simp [TicketController.getTickets, hrole]

/-- Claim C6 witness: a foreign customer is refused, the owner succeeds, the
the listing for the owner only shows tickets they own. -/
theorem C6_customer_record_visibility_witness :
    TicketController.getTicketById dbController otherCustomer 1 =
      .error (403, "Not authorized to access this ticket") ∧
    TicketController.getTicketById dbController ownerCustomer 1 =
      .ok freshTicket ∧
    freshTicket.customer = ownerCustomer.id :=
  ⟨(C6_customer_record_visibility dbController otherCustomer 1 freshTicket
      ⟨2, Role.customer⟩ rfl rfl).1 rfl (by decide),
   (C6_customer_record_visibility dbController ownerCustomer 1 freshTicket
      ⟨2, Role.customer⟩ rfl rfl).2.1 rfl rfl,
   (C6_customer_record_visibility dbController ownerCustomer 1
      freshTicket ⟨2, Role.customer⟩ rfl rfl).2.2.2.1 rfl
      { customer := some 9 } freshTicket (by
        simp [TicketController.getTickets, TicketService.getTickets,
          TicketService.sortByCreatedDesc, TicketService.matchesFilters,
          List.mergeSort, dbController, freshTicket, ownerCustomer])⟩

/-- Claim C7: a customer adding an isInternal comment is refused with 403 and
the store is untouched; an admin or agent succeeds and the comment is appended
at the end of the embedded comment sequence with its own createdAt, the prior
comments left unchanged and in order. -/
theorem C7_internal_comment_policy (now : Nat) (db : Db) (actor : User)
    (id : Nat) (t : Ticket) (content : String)
    (hfind : db.tickets.find? (fun x => x.id == id) = some t)
    (hcontent : content ≠ "") :
    (actor.role = Role.customer →
       TicketController.addComment now db actor id content (some true) =
         (.error (403, "Customers cannot create internal comments"), db)) ∧
    ((actor.role = Role.admin ∨ actor.role = Role.agent) →
       (TicketController.addComment now db actor id content (some true)).1 =
         .ok { t with comments := t.comments ++ [⟨content, actor.id, true, now⟩] } ∧
       (TicketController.addComment now db actor id content (some true)).2 =
         { db with tickets := TicketService.replaceTicket db.tickets
                        ({ t with comments :=
                            t.comments ++ [⟨content, actor.id, true, now⟩] }) }) := by
  constructor
  · intro hrole
    simp [TicketController.addComment, hcontent, hrole]
  · intro hrole
    have hne : actor.role ≠ Role.customer := by
      rcases hrole with h | h <;> simp [h]
    have hsvc : TicketService.getTicketById db id = .ok t := by
      simp [TicketService.getTicketById, hfind]
    have hadd : TicketService.addComment now db id
        { content := content, author := actor.id, isInternal := some true } =
        (.ok { t with comments := t.comments ++ [⟨content, actor.id, true, now⟩] },
         { db with tickets := TicketService.replaceTicket db.tickets
                        ({ t with comments :=
                            t.comments ++ [⟨content, actor.id, true, now⟩] }) }) := by
      simp [TicketService.addComment, hfind]
    constructor <;> simp [TicketController.addComment, hcontent, hne, hsvc, hadd]

/-- Claim C7 witness: the owning customer is refused; an agent's internal
comment lands at the end of the sequence. -/
theorem C7_internal_comment_policy_witness :
    TicketController.addComment 11 dbController ownerCustomer 1 "hi" (some true) =
      (.error (403, "Customers cannot create internal comments"), dbController) ∧
    (TicketController.addComment 11 dbController someAgent 1 "hi" (some true)).1 =
      .ok { freshTicket with
            comments := freshTicket.comments ++ [⟨"hi", someAgent.id, true, 11⟩] } ∧
    (TicketController.addComment 11 dbController someAgent 1 "hi" (some true)).2 =
      { dbController with tickets := TicketService.replaceTicket dbController.tickets
                               ({ freshTicket with comments :=
                                   freshTicket.comments ++
                                     [⟨"hi", someAgent.id, true, 11⟩] }) } :=
  ⟨(C7_internal_comment_policy 11 dbController ownerCustomer 1 freshTicket "hi"
      rfl (by decide)).1 rfl,
   ((C7_internal_comment_policy 11 dbController someAgent 1 freshTicket "hi"
      rfl (by decide)).2 (Or.inr rfl)).1,
   ((C7_internal_comment_policy 11 dbController someAgent 1 freshTicket "hi"
      rfl (by decide)).2 (Or.inr rfl)).2⟩

/-- Claim C9: listTickets reports total = number of tickets matching the
filter, the requested 1-indexed page, pageCount = ceil(total / pageSize), and
a page window taken from the matching tickets ordered by creation time
descending. -/
theorem C9_listTickets_pagination (db : Db) (f : TicketService.TicketFilters)
    (p l : Nat) (hp : f.page = some p) (hl : f.limit = some l)
    (hp1 : 1 ≤ p) (hl1 : 1 ≤ l) :
    (TicketService.getTickets db f).total =
      (db.tickets.filter (TicketService.matchesFilters f)).length ∧
    (TicketService.getTickets db f).page = p ∧
    (TicketService.getTickets db f).pages =
      (TicketService.getTickets db f).total ⌈/⌉ l ∧
    ∃ sorted, (db.tickets.filter (TicketService.matchesFilters f)).Perm sorted ∧
      sorted.Pairwise (fun a b => b.createdAt ≤ a.createdAt) ∧
      (TicketService.getTickets db f).tickets =
        (sorted.drop ((p - 1) * l)).take l := by
  obtain ⟨p0, rfl⟩ : ∃ p0, p = p0 + 1 := ⟨p - 1, by omega⟩
  obtain ⟨l0, rfl⟩ : ∃ l0, l = l0 + 1 := ⟨l - 1, by omega⟩
  refine ⟨?_, ?_, ?_, ?_⟩
  · simp [TicketService.getTickets, hp, hl]
  · simp [TicketService.getTickets, hp, hl]
  · simp [TicketService.getTickets, hp, hl, Nat.ceilDiv_eq_add_pred_div]
  · refine ⟨TicketService.sortByCreatedDesc
      (db.tickets.filter (TicketService.matchesFilters f)), ?_, ?_, ?_⟩
    · exact (List.mergeSort_perm _ _).symm
    · have htrans : ∀ a b c : Ticket,
          decide (b.createdAt ≤ a.createdAt) = true →
          decide (c.createdAt ≤ b.createdAt) = true →
          decide (c.createdAt ≤ a.createdAt) = true := by
        intro a b c h1 h2
        simp only [decide_eq_true_eq] at h1 h2 ⊢
        omega
      have htotal : ∀ a b : Ticket,
          (decide (b.createdAt ≤ a.createdAt) ||
           decide (a.createdAt ≤ b.createdAt)) = true := by
        intro a b
        simp only [Bool.or_eq_true, decide_eq_true_eq]
        omega
      have h := @List.sorted_mergeSort Ticket
        (fun a b => decide (b.createdAt ≤ a.createdAt)) htrans htotal
        (db.tickets.filter (TicketService.matchesFilters f))
      refine List.Pairwise.imp ?_ h
      intro a b hab
      simpa using hab
    · simp [TicketService.getTickets, hp, hl]

/-- Claim C9 witness: two of four stored tickets match status=open and
priority=high; with page 1 of size 1 the report is total 2, page 1, 2 pages. -/
theorem C9_listTickets_pagination_witness :
    (TicketService.getTickets dbList filterOpenHigh).total = 2 ∧
    (TicketService.getTickets dbList filterOpenHigh).page = 1 ∧
    (TicketService.getTickets dbList filterOpenHigh).pages = 2 := by
  have h := C9_listTickets_pagination dbList filterOpenHigh 1 1 rfl rfl
    (by decide) (by decide)
  refine ⟨h.1.trans (by decide), h.2.1, ?_⟩
  rw [h.2.2.1, h.1]
  decide

/-- Claim C10 witness at a concrete store and input. -/
theorem C10_created_ticket_defaults_witness :
    (TicketService.mkNewTicket 5 1 inpNoQueue 0).status = .new ∧
    (TicketService.mkNewTicket 5 1 inpNoQueue 0).comments = [] ∧
    (TicketService.mkNewTicket 5 1 inpNoQueue 0).assignee = none ∧
    (TicketService.mkNewTicket 5 1 inpNoQueue 0).resolvedAt = none ∧
    (TicketService.mkNewTicket 5 1 inpNoQueue 0).closedAt = none :=
  C10_created_ticket_defaults 5 dbWithDefault inpNoQueue
    (TicketService.mkNewTicket 5 1 inpNoQueue 0) rfl

end Ticketing
